import Mathlib

/-!
Verification development for the MAGI repository (src/llm_menu.py).

Strings from the Python source are modelled as `List Char`.  The GTK
widget tree, the `requests` HTTP client and the `json` codec are external
libraries; their observable outcomes are modelled at the boundary
(a stream line is classified by its parse outcome, the persisted JSON
array is modelled structurally).  All definitions below are translated
from the source of `src/llm_menu.py`; line references are given in the
doc comments.
-/

/-- The backtick character (code point 96), the character of the
triple-backtick fence delimiter used by `full_response.split('```')`. -/
def fenceChar : Char := Char.ofNat 96

/-- Python `str.strip()` whitespace predicate, restricted to the ASCII
whitespace characters: space, tab, newline, carriage return, vertical
tab (11) and form feed (12). -/
def isPySpace (c : Char) : Bool :=
  c == ' ' || c == '\t' || c == '\n' || c == '\r' ||
  c == Char.ofNat 11 || c == Char.ofNat 12

/-- Python `str.strip()`: drop leading and trailing whitespace. -/
def pyStrip (s : List Char) : List Char :=
  (((s.dropWhile isPySpace).reverse).dropWhile isPySpace).reverse

/-- Scanner for Python `full_response.split('```')` (src/llm_menu.py
line 303): scan one character at a time; `acc` holds the current piece in
reverse, `pending` (0, 1 or 2) counts the consecutive backticks read so
far.  When a third consecutive backtick arrives the current piece is
emitted and the scan restarts, which is exactly the left-to-right
non-overlapping occurrence search of `str.split`. -/
def splitFenceScan : List Char → List Char → Nat → List (List Char)
  | [], acc, pending => [acc.reverse ++ List.replicate pending fenceChar]
  | c :: rest, acc, pending =>
    if c = fenceChar then
      if pending = 2 then
        acc.reverse :: splitFenceScan rest [] 0
      else
        splitFenceScan rest acc (pending + 1)
    else
      splitFenceScan rest (c :: (List.replicate pending fenceChar ++ acc)) 0

/-- Python `full_response.split('```')`: the list of pieces between the
non-overlapping triple-backtick fences, in order. -/
def splitFence (s : List Char) : List (List Char) :=
  splitFenceScan s [] 0

/-- Loop body of `split_and_create_boxes` (src/llm_menu.py lines 305-310):
for each piece, if `part.strip()` is non-empty a box `(part.strip(),
is_code)` is produced and only then `is_code` is toggled; pieces that are
empty after stripping are skipped without toggling the role. -/
def splitAndCreate : List (List Char) → Bool → List (List Char × Bool)
  | [], _ => []
  | p :: rest, is_code =>
    if (pyStrip p).isEmpty then
      splitAndCreate rest is_code
    else
      (pyStrip p, is_code) :: splitAndCreate rest (!is_code)

/-- The pure segment splitter of `split_and_create_boxes`
(src/llm_menu.py lines 299-312; the spec's `SegmentSplitter.split`):
split the finished response on the triple-backtick fence, strip each
piece, drop empty pieces, and assign the code role starting from
`is_code = False`. -/
def segmentSplit (fullText : List Char) : List (List Char × Bool) :=
  splitAndCreate (splitFence fullText) false

example : segmentSplit ("a```b```c".toList)
    = [("a".toList, false), ("b".toList, true), ("c".toList, false)] := by
  decide

example : segmentSplit ("".toList) = [] := by decide

example : segmentSplit ("   ".toList) = [] := by decide

example : segmentSplit ("```only code```".toList)
    = [("only code".toList, false)] := by decide

/-- One raw line of the streamed HTTP response, classified by the
outcome of the loop body at src/llm_menu.py lines 281-296: `blank`
(falsy line, `if line:` skips it), `malformed` (`json.loads` raises
`JSONDecodeError`, caught and skipped), `noField` (valid JSON without a
`response` key, skipped), or `chunk t` (valid JSON whose `response`
field holds the text `t`). -/
inductive Line where
  | blank
  | malformed
  | noField
  | chunk (t : List Char)
deriving DecidableEq

/-- The chunk-reading loop of `send_to_ollama` (src/llm_menu.py lines
281-296) on the happy path: starting from the accumulated text `acc`
(the source's `full_response`), process each line; a `chunk t` line
appends `t` to the accumulated text and posts an update carrying the new
accumulated text (the argument of `onChunk`); every other line is
skipped.  Returns the ordered list of posted update texts and the final
accumulated text (the argument of `onDone`, i.e. of
`split_and_create_boxes`). -/
def runStream (acc : List Char) : List Line → List (List Char) × List Char
  | [] => ([], acc)
  | Line.blank :: rest => runStream acc rest
  | Line.malformed :: rest => runStream acc rest
  | Line.noField :: rest => runStream acc rest
  | Line.chunk t :: rest =>
    ((acc ++ t) :: (runStream (acc ++ t) rest).1, (runStream (acc ++ t) rest).2)

/-- The texts of the `chunk` lines of a stream, in order. -/
def chunkTexts : List Line → List (List Char)
  | [] => []
  | Line.blank :: rest => chunkTexts rest
  | Line.malformed :: rest => chunkTexts rest
  | Line.noField :: rest => chunkTexts rest
  | Line.chunk t :: rest => t :: chunkTexts rest

/-- Concatenation of a list of character lists. -/
def concatAll : List (List Char) → List Char
  | [] => []
  | t :: ts => t ++ concatAll ts

/-- The running accumulations of a list of texts on top of `acc`:
`accumSnapshots acc [t1, t2, ...] = [acc ++ t1, acc ++ t1 ++ t2, ...]`.
This is the sequence of full accumulated texts after each chunk. -/
def accumSnapshots (acc : List Char) : List (List Char) → List (List Char)
  | [] => []
  | t :: ts => (acc ++ t) :: accumSnapshots (acc ++ t) ts

/-- Each element of the list is a prefix of the next. -/
def monotonePrefixes : List (List Char) → Prop
  | [] => True
  | [_] => True
  | a :: b :: rest => a <+: b ∧ monotonePrefixes (b :: rest)

example : runStream [] [Line.chunk ("He".toList), Line.malformed,
    Line.chunk ("llo".toList), Line.blank]
    = ([("He".toList), ("Hello".toList)], "Hello".toList) := by decide

/-- A `MessageBox` widget (src/llm_menu.py lines 13-18), reduced to the
fields the conversation log observes: the label text and the `is_user`
and `is_code` flags set at construction.  For code boxes the label is
set through markup of the same text, so `label.get_text()` returns
`text` in every case. -/
structure MessageBox where
  text : List Char
  is_user : Bool
  is_code : Bool
deriving DecidableEq

/-- One object of the persisted JSON array written by `save_history`
(src/llm_menu.py lines 341-347): keys `text`, `is_user`, `is_code`.
The `is_code` key is optional on the reading side because `load_history`
accesses it with `msg.get('is_code', False)`. -/
structure HistEntry where
  text : List Char
  is_user : Bool
  is_code : Option Bool
deriving DecidableEq

/-- The dict built for one box by `save_history` (src/llm_menu.py lines
342-346). -/
def historyEntryOf (m : MessageBox) : HistEntry :=
  { text := m.text, is_user := m.is_user, is_code := some m.is_code }

/-- The `MessageBox` rebuilt from one persisted object by `load_history`
(src/llm_menu.py lines 326-331): `MessageBox(msg['text'],
msg['is_user'], self, msg.get('is_code', False))`. -/
def messageOfEntry (e : HistEntry) : MessageBox :=
  { text := e.text, is_user := e.is_user, is_code := e.is_code.getD false }

/-- The JSON array written by one `save_history` call: one entry per
child of `messages_box`, in order (src/llm_menu.py lines 338-350). -/
def serializeHistory (msgs : List MessageBox) : List HistEntry :=
  msgs.map historyEntryOf

/-- The state of `MainWindow` observable by the core logic:
`messages_box` is the ordered list of message boxes (the conversation
log), `entry` the text of the input entry, `historyFile` the current
contents of `/tmp/MAGI/chat_history.json` (`none` when the file has
never been written), and `ollamaThreads` the number of
`send_to_ollama` worker threads started and not yet finished. -/
structure MainWindowState where
  messages_box : List MessageBox
  entry : List Char
  historyFile : Option (List HistEntry)
  ollamaThreads : Nat
deriving DecidableEq

/-- `MainWindow.save_history` (src/llm_menu.py lines 338-350): rewrite
the whole history file from the current `messages_box`. -/
def save_history (s : MainWindowState) : MainWindowState :=
  { s with historyFile := some (serializeHistory s.messages_box) }

/-- `MainWindow.add_message` (src/llm_menu.py lines 253-258): append a
`MessageBox(text, is_user, self)` (so `is_code = False`), and call
`save_history` only when `is_user` is true. -/
def add_message (s : MainWindowState) (text : List Char) (is_user : Bool) :
    MainWindowState :=
  let s1 := { s with
    messages_box := s.messages_box ++ [MessageBox.mk text is_user false] }
  if is_user then save_history s1 else s1

/-- `MainWindow.on_send` (src/llm_menu.py lines 260-265): strip the
entry text; when non-empty, add it as a user message, clear the entry
and start a `send_to_ollama` worker thread; when empty, do nothing. -/
def on_send (s : MainWindowState) : MainWindowState :=
  let text := pyStrip s.entry
  if text.isEmpty then s
  else
    let s1 := add_message s text true
    let s2 := { s1 with entry := [] }
    { s2 with ollamaThreads := s2.ollamaThreads + 1 }

/-- The live placeholder box created at the start of `send_to_ollama`
(src/llm_menu.py line 269): `MessageBox("...", False, self)`. -/
def placeholderBox : MessageBox := MessageBox.mk ("...".toList) false false

/-- The text prefix of both error messages of `send_to_ollama`
(src/llm_menu.py lines 318 and 320): `f"Error: HTTP {status}"` and
`f"Error: {str(e)}"`. -/
def errorPrefix : List Char := "Error: ".toList

/-- The error path of `send_to_ollama` (src/llm_menu.py lines 317-320):
both on a non-ok HTTP status and on an exception the posted closure
calls `add_message(f"Error: {desc}", False)`, where `desc` is
`HTTP {status}` or `str(e)`.  Nothing removes the live placeholder box
on this path, and `add_message` with `is_user = False` does not save. -/
def on_stream_error (s : MainWindowState) (desc : List Char) :
    MainWindowState :=
  add_message s (errorPrefix ++ desc) false

/-- The `split_and_create_boxes` closure posted on clean stream end
(src/llm_menu.py lines 299-312) as a transition on the window state:
remove the live placeholder box, append one assistant box per segment of
the split response, and save the history.  The placeholder is identified
by its value; in the serial runs modelled here the `"..."` box is the
unique live one. -/
def split_and_create_boxes (s : MainWindowState) (full_response : List Char) :
    MainWindowState :=
  let removed := s.messages_box.erase placeholderBox
  let boxes := (segmentSplit full_response).map
    (fun p => MessageBox.mk p.1 false p.2)
  save_history { s with messages_box := removed ++ boxes }

/-- Observable condition of the history file when `load_history`
(src/llm_menu.py lines 322-336) opens it: missing (raises
`FileNotFoundError`, which the source catches and ignores), unreadable
(raises another `OSError`, uncaught), unparsable (raises
`json.JSONDecodeError`, uncaught), or a readable JSON array of entries. -/
inductive FileState where
  | absent
  | unreadable
  | corrupt
  | ok (entries : List HistEntry)
deriving DecidableEq

/-- Failure of a `load_history` call. -/
inductive LoadErr where
  | ioError
  | parseError
deriving DecidableEq

/-- `MainWindow.load_history` (src/llm_menu.py lines 322-336): a missing
file is swallowed by `except FileNotFoundError: pass`, leaving the log
empty; an unreadable or unparsable file raises an uncaught exception
(modelled as an error result); otherwise one `MessageBox` is appended
per entry, in order. -/
def load_history : FileState → Except LoadErr (List MessageBox)
  | FileState.absent => Except.ok []
  | FileState.unreadable => Except.error LoadErr.ioError
  | FileState.corrupt => Except.error LoadErr.parseError
  | FileState.ok entries => Except.ok (entries.map messageOfEntry)

/-- Where a view mutation of `send_to_ollama` is executed: directly on
the background worker thread, or inside a closure posted to the GTK main
(presentation) thread with `GLib.idle_add`. -/
inductive Origin where
  | worker
  | postedIdle
deriving DecidableEq

/-- A mutation of presentation-thread state performed during one
`send_to_ollama` run: appending or removing a box of `messages_box`,
setting the live label text, adjusting the scroll position (the body of
the `_scroll` closure of `scroll_to_bottom`), or rewriting the history
file. -/
inductive ViewMutation where
  | appendBox (m : MessageBox)
  | removeBox (m : MessageBox)
  | setLiveText (t : List Char)
  | scrollAdjust
  | writeHistory
deriving DecidableEq

/-- How one `send_to_ollama` run ends (src/llm_menu.py lines 274-320):
`done` (response ok, stream read to the end), `httpError status`
(`response.ok` false, read before any chunk is consumed), or `exn msg`
(an exception — connection or read failure — caught by the outer
`except`). -/
inductive Outcome where
  | done
  | httpError (status : List Char)
  | exn (msg : List Char)
deriving DecidableEq

/-- View mutations of the chunk loop (src/llm_menu.py lines 282-296):
for each parsed chunk the worker posts an `update` closure with
`GLib.idle_add`; the closure sets the live label to the accumulated text
and calls `scroll_to_bottom`, whose `_scroll` body is again posted. -/
def chunkTrace (acc : List Char) : List Line → List (Origin × ViewMutation)
  | [] => []
  | Line.blank :: rest => chunkTrace acc rest
  | Line.malformed :: rest => chunkTrace acc rest
  | Line.noField :: rest => chunkTrace acc rest
  | Line.chunk t :: rest =>
    (Origin.postedIdle, ViewMutation.setLiveText (acc ++ t)) ::
    (Origin.postedIdle, ViewMutation.scrollAdjust) ::
    chunkTrace (acc ++ t) rest

/-- The ordered view mutations of one `send_to_ollama` run
(src/llm_menu.py lines 267-320), each tagged with where it executes.
The live placeholder box is created and appended to `messages_box`
directly on the worker thread (lines 269-270); the `scroll_to_bottom`
call on line 271 posts its `_scroll` body; every later mutation is
inside a closure passed to `GLib.idle_add`: the per-chunk updates, the
`split_and_create_boxes` work on clean end (remove the placeholder,
append one box per segment, scroll, save), or the error-path
`add_message` (append the error box, scroll, no save). -/
def send_to_ollama_trace (lines : List Line) (oc : Outcome) :
    List (Origin × ViewMutation) :=
  (Origin.worker, ViewMutation.appendBox placeholderBox) ::
  (Origin.postedIdle, ViewMutation.scrollAdjust) ::
  match oc with
  | Outcome.done =>
    chunkTrace [] lines ++
    (Origin.postedIdle, ViewMutation.removeBox placeholderBox) ::
    (segmentSplit (concatAll (chunkTexts lines))).map
      (fun p => (Origin.postedIdle, ViewMutation.appendBox
        (MessageBox.mk p.1 false p.2))) ++
    [(Origin.postedIdle, ViewMutation.scrollAdjust),
     (Origin.postedIdle, ViewMutation.writeHistory)]
  | Outcome.httpError status =>
    [(Origin.postedIdle, ViewMutation.appendBox
        (MessageBox.mk (errorPrefix ++ ("HTTP ".toList) ++ status) false false)),
     (Origin.postedIdle, ViewMutation.scrollAdjust)]
  | Outcome.exn msg =>
    chunkTrace [] lines ++
    [(Origin.postedIdle, ViewMutation.appendBox
        (MessageBox.mk (errorPrefix ++ msg) false false)),
     (Origin.postedIdle, ViewMutation.scrollAdjust)]

/-- Alternating role list of length `n` starting with `b`. -/
def altRoles : Bool → Nat → List Bool
  | _, 0 => []
  | b, n + 1 => b :: altRoles (!b) n

/-- Helper: `splitAndCreate` emits exactly the non-empty stripped pieces,
in order, and its roles alternate from the starting role over the
emitted pieces. -/
theorem splitAndCreate_texts_roles (parts : List (List Char)) (b : Bool) :
    (splitAndCreate parts b).map Prod.fst
      = (parts.map pyStrip).filter (fun t => !t.isEmpty) ∧
    (splitAndCreate parts b).map Prod.snd
      = altRoles b (splitAndCreate parts b).length := by
  induction parts generalizing b with
  | nil => simp [splitAndCreate, altRoles]
  | cons p rest ih =>
    by_cases h : (pyStrip p).isEmpty
    · simpa [splitAndCreate, h] using ih b
    · simp [splitAndCreate, h, altRoles, (ih (!b)).1, (ih (!b)).2]

/-- Claim C1, counterexample: the claim says role is purely positional,
so that `split("```only code```")` yields `("only code", true)`; on the
code, the leading empty piece is dropped without advancing the role
(the toggle sits inside `if part.strip():`), so the surviving piece gets
role not-code.  The splitter's value refutes the claimed value. -/
theorem segmentSplit_positional_role_cex :
    segmentSplit ("```only code```".toList) ≠ [("only code".toList, true)] := by
  decide

/-- Claim C1, amended: `split` partitions `fullText` on the
triple-backtick fence, trims each piece, drops pieces empty after
trimming, and assigns roles that alternate starting with not-code over
the SURVIVING pieces only — a dropped piece does not advance the role,
so the role is not positional.  Formally: the emitted texts are exactly
the non-empty trimmed pieces in order, and the emitted roles are the
alternating sequence starting with `false`. -/
theorem segmentSplit_survivor_alternation (fullText : List Char) :
    (segmentSplit fullText).map Prod.fst
      = ((splitFence fullText).map pyStrip).filter (fun t => !t.isEmpty) ∧
    (segmentSplit fullText).map Prod.snd
      = altRoles false (segmentSplit fullText).length :=
  splitAndCreate_texts_roles (splitFence fullText) false

/-- Helper: stripping a string of whitespace characters leaves nothing. -/
theorem pyStrip_all_space {s : List Char}
    (h : ∀ c ∈ s, isPySpace c = true) : pyStrip s = [] := by
  have h1 : s.dropWhile isPySpace = [] := List.dropWhile_eq_nil_iff.mpr h
  simp [pyStrip, h1]

/-- Helper: a string with no backtick is returned by the fence split as
a single piece. -/
theorem splitFenceScan_no_fence {s : List Char} (acc : List Char)
    (h : fenceChar ∉ s) : splitFenceScan s acc 0 = [acc.reverse ++ s] := by
  induction s generalizing acc with
  | nil => simp [splitFenceScan]
  | cons c rest ih =>
    have hc : ¬ c = fenceChar := fun he => h (he ▸ List.mem_cons_self c rest)
    have hrest : fenceChar ∉ rest := fun hm => h (List.mem_cons_of_mem c hm)
    simp [splitFenceScan, hc, ih _ hrest]

/-- Claim C9: if the finished response is empty or entirely whitespace,
the splitter yields zero segments, and the `split_and_create_boxes`
transition appends no message to the log (it only removes the live
placeholder box). -/
theorem whitespace_reply_yields_nothing (s : MainWindowState)
    (fullText : List Char) (h : ∀ c ∈ fullText, isPySpace c = true) :
    segmentSplit fullText = [] ∧
    (split_and_create_boxes s fullText).messages_box
      = s.messages_box.erase placeholderBox := by
  have hfence : fenceChar ∉ fullText := by
    intro hm
    have hsp := h _ hm
    simp [isPySpace, fenceChar] at hsp
  have hsplit : splitFence fullText = [fullText] := by
    simpa [splitFence] using splitFenceScan_no_fence [] hfence
  have hseg : segmentSplit fullText = [] := by
    simp [segmentSplit, hsplit, splitAndCreate, pyStrip_all_space h]
  refine ⟨hseg, ?_⟩
  simp [split_and_create_boxes, hseg, save_history]

/-- Demo state for the C9 witness: a log holding one user message and
the live placeholder. -/
def demoDoneState : MainWindowState :=
  MainWindowState.mk [MessageBox.mk ("hi".toList) true false, placeholderBox]
    [] (some [historyEntryOf (MessageBox.mk ("hi".toList) true false)]) 1

/-- Witness for C9 at the concrete all-whitespace reply `"   "`. -/
theorem whitespace_reply_yields_nothing_witness :
    (∀ c ∈ ("   ".toList), isPySpace c = true) ∧
    segmentSplit ("   ".toList) = [] ∧
    (split_and_create_boxes demoDoneState ("   ".toList)).messages_box
      = demoDoneState.messages_box.erase placeholderBox :=
  ⟨by decide,
    (whitespace_reply_yields_nothing demoDoneState ("   ".toList) (by decide)).1,
    (whitespace_reply_yields_nothing demoDoneState ("   ".toList) (by decide)).2⟩

/-- Helper: the chunk loop posts exactly the running accumulations of
the chunk texts, and ends with the accumulated text extended by all
chunk texts. -/
theorem runStream_eq (lines : List Line) :
    ∀ acc, runStream acc lines
      = (accumSnapshots acc (chunkTexts lines),
         acc ++ concatAll (chunkTexts lines)) := by
  induction lines with
  | nil => intro acc; simp [runStream, chunkTexts, accumSnapshots, concatAll]
  | cons l rest ih =>
    intro acc
    cases l <;>
      simp [runStream, chunkTexts, accumSnapshots, concatAll, ih,
        List.append_assoc]

/-- Helper: running accumulations grow by suffix extension, so each is a
prefix of the next. -/
theorem accumSnapshots_monotone (ts : List (List Char)) :
    ∀ acc, monotonePrefixes (accumSnapshots acc ts) := by
  induction ts with
  | nil => intro acc; simp [accumSnapshots, monotonePrefixes]
  | cons t ts ih =>
    intro acc
    cases ts with
    | nil => simp [accumSnapshots, monotonePrefixes]
    | cons t2 ts2 => exact ⟨⟨t2, rfl⟩, ih (acc ++ t)⟩

/-- Helper: the last running accumulation is the full concatenation. -/
theorem accumSnapshots_getLast (ts : List (List Char)) :
    ∀ acc, ts ≠ [] →
      (accumSnapshots acc ts).getLast? = some (acc ++ concatAll ts) := by
  induction ts with
  | nil => intro acc h; exact absurd rfl h
  | cons t ts ih =>
    intro acc _
    cases ts with
    | nil => simp [accumSnapshots, concatAll]
    | cons t2 ts2 =>
      have h2 := ih (acc ++ t) (List.cons_ne_nil t2 ts2)
      calc (accumSnapshots acc (t :: t2 :: ts2)).getLast?
          = (accumSnapshots (acc ++ t) (t2 :: ts2)).getLast? := by
            simp [accumSnapshots, List.getLast?_cons_cons]
        _ = some ((acc ++ t) ++ concatAll (t2 :: ts2)) := h2
        _ = some (acc ++ concatAll (t :: t2 :: ts2)) := by
            simp [concatAll, List.append_assoc]

/-- Claim C4: each posted chunk update carries the full accumulated text
so far (the running accumulations of the chunk texts, not the deltas);
the carried texts grow monotonically, each being a prefix of the next;
and when at least one chunk update was posted, the text handed to the
completion step equals the text of the last chunk update. -/
theorem stream_chunks_accumulate (lines : List Line) :
    (runStream [] lines).1 = accumSnapshots [] (chunkTexts lines) ∧
    monotonePrefixes ((runStream [] lines).1) ∧
    ((runStream [] lines).1 ≠ [] →
      (runStream [] lines).1.getLast? = some ((runStream [] lines).2)) := by
  have he := runStream_eq lines []
  refine ⟨by simp [he], ?_, ?_⟩
  · simpa [he] using accumSnapshots_monotone (chunkTexts lines) []
  · intro hne
    simp [he] at hne ⊢
    have hts : chunkTexts lines ≠ [] := by
      intro h0
      rw [h0] at hne
      simp [accumSnapshots] at hne
    simpa using accumSnapshots_getLast (chunkTexts lines) [] hts

/-- Demo stream for the C4 witness. -/
def demoLines : List Line :=
  [Line.chunk ("Hel".toList), Line.malformed, Line.chunk ("lo".toList)]

/-- Witness for C4 at a concrete stream with two chunks and a malformed
line. -/
theorem stream_chunks_accumulate_witness :
    (runStream [] demoLines).1 ≠ [] ∧
    (runStream [] demoLines).1.getLast? = some ((runStream [] demoLines).2) :=
  ⟨by decide, (stream_chunks_accumulate demoLines).2.2 (by decide)⟩

/-- Claim C6: a malformed line is silently skipped: the run of the chunk
loop on a stream containing it is identical — same accumulated text at
that point, same subsequent chunk updates, same terminal result — to the
run on the stream with that line deleted. -/
theorem malformed_line_skipped (pre post : List Line) (acc : List Char) :
    runStream acc (pre ++ Line.malformed :: post)
      = runStream acc (pre ++ post) := by
  induction pre generalizing acc with
  | nil => simp [runStream]
  | cons l rest ih => cases l <;> simp [runStream, ih]

/-- Claim C7: `save_history` writes exactly the serialized ordered
sequence of boxes, and `load_history` on a file holding that array
reproduces the same ordered sequence of messages — text, `is_user` and
`is_code` all round-trip. -/
theorem history_round_trip (s : MainWindowState) :
    (save_history s).historyFile = some (serializeHistory s.messages_box) ∧
    load_history (FileState.ok (serializeHistory s.messages_box))
      = Except.ok s.messages_box := by
  refine ⟨rfl, ?_⟩
  have hmm : messageOfEntry ∘ historyEntryOf = id := funext fun m => rfl
  simp [load_history, serializeHistory, List.map_map, hmm]

/-- Claim C8: a missing history file is not an error and yields the
empty log; `load_history` fails exactly on a file that exists but is
unreadable or unparsable. -/
theorem load_history_error_discipline (fs : FileState) :
    load_history FileState.absent = Except.ok [] ∧
    load_history FileState.unreadable = Except.error LoadErr.ioError ∧
    load_history FileState.corrupt = Except.error LoadErr.parseError ∧
    (∀ e, load_history fs = Except.error e →
      fs = FileState.unreadable ∨ fs = FileState.corrupt) := by
  refine ⟨rfl, rfl, rfl, ?_⟩
  intro e h
  cases fs with
  | absent => simp [load_history] at h
  | unreadable => exact Or.inl rfl
  | corrupt => exact Or.inr rfl
  | ok entries => simp [load_history] at h

/-- Witness for C8 at the concrete corrupt file state. -/
theorem load_history_error_discipline_witness :
    load_history FileState.corrupt = Except.error LoadErr.parseError ∧
    (FileState.corrupt = FileState.unreadable ∨
     FileState.corrupt = FileState.corrupt) :=
  ⟨(load_history_error_discipline FileState.corrupt).2.2.1,
   (load_history_error_discipline FileState.corrupt).2.2.2
     LoadErr.parseError rfl⟩

/-- Claim C10: submitting a blank (empty or all-whitespace) entry is a
no-op: the whole window state — log, entry text, history file, worker
threads — is unchanged. -/
theorem on_send_blank_noop (s : MainWindowState)
    (h : pyStrip s.entry = []) : on_send s = s := by
  simp [on_send, h]

/-- Demo state for the C10 witness: an all-whitespace entry. -/
def demoBlankEntry : MainWindowState :=
  MainWindowState.mk [] ("   ".toList) none 0

/-- Witness for C10 at the concrete all-whitespace entry. -/
theorem on_send_blank_noop_witness :
    pyStrip demoBlankEntry.entry = [] ∧
    on_send demoBlankEntry = demoBlankEntry :=
  ⟨by decide, on_send_blank_noop demoBlankEntry (by decide)⟩

/-- Demo state for C2: one user message in the log, the live placeholder
of an unfinished session present, one `send_to_ollama` worker thread
still running, and new text in the entry. -/
def demoAwaitSend : MainWindowState :=
  MainWindowState.mk
    [MessageBox.mk ("hi".toList) true false, placeholderBox]
    ("again".toList)
    (some [historyEntryOf (MessageBox.mk ("hi".toList) true false)]) 1

/-- Claim C2, counterexample: with one session still live (one running
worker thread, placeholder still in the log), submitting again is not
rejected or queued: `on_send` starts a second concurrent worker, so the
claim that at most one live session exists is false on the code. -/
theorem on_send_second_session_cex :
    demoAwaitSend.ollamaThreads = 1 ∧
    ¬ (on_send demoAwaitSend).ollamaThreads ≤ 1 := by decide

/-- Claim C2, amended: `on_send` never inspects the session state — any
submission with non-empty stripped text immediately starts one more
`send_to_ollama` worker thread, whatever the number of live sessions. -/
theorem on_send_always_spawns (s : MainWindowState)
    (h : ¬ pyStrip s.entry = []) :
    (on_send s).ollamaThreads = s.ollamaThreads + 1 := by
  simp [on_send, add_message, save_history, h]

/-- Witness for the amended C2 at the concrete awaiting state. -/
theorem on_send_always_spawns_witness :
    ¬ pyStrip demoAwaitSend.entry = [] ∧
    (on_send demoAwaitSend).ollamaThreads = demoAwaitSend.ollamaThreads + 1 :=
  ⟨by decide, on_send_always_spawns demoAwaitSend (by decide)⟩

/-- Demo state for C5: one user message and the live placeholder, with
the user message persisted. -/
def demoAwaitErr : MainWindowState :=
  MainWindowState.mk
    [MessageBox.mk ("hello".toList) true false, placeholderBox]
    []
    (some [historyEntryOf (MessageBox.mk ("hello".toList) true false)]) 1

/-- Claim C5, counterexample: on a transport error at a concrete
awaiting state the claim requires the live placeholder to be removed and
the appended error message to be persisted; on the code the placeholder
stays in `messages_box` and the history file is not rewritten, so the
conjunction fails. -/
theorem on_stream_error_claim_cex :
    ¬ (placeholderBox ∉
        (on_stream_error demoAwaitErr ("connection refused".toList)).messages_box ∧
       (on_stream_error demoAwaitErr ("connection refused".toList)).historyFile
         = some (serializeHistory
            (on_stream_error demoAwaitErr
              ("connection refused".toList)).messages_box)) := by
  decide

/-- Claim C5, amended: on a stream error exactly one assistant message
`"Error: " ++ desc` is appended at the end of the log; the live
placeholder box is NOT removed (the log is only extended), and the
history file is NOT rewritten by this transition (persistence happens
only on user-message appends and on clean completion). -/
theorem on_stream_error_appends_unsaved (s : MainWindowState)
    (desc : List Char) :
    (on_stream_error s desc).messages_box
      = s.messages_box ++ [MessageBox.mk (errorPrefix ++ desc) false false] ∧
    (on_stream_error s desc).historyFile = s.historyFile := by
  simp [on_stream_error, add_message]

/-- Helper: every mutation of the chunk loop is posted to the
presentation thread. -/
theorem chunkTrace_posted (lines : List Line) :
    ∀ acc e, e ∈ chunkTrace acc lines → e.1 = Origin.postedIdle := by
  induction lines with
  | nil => intro acc e he; simp [chunkTrace] at he
  | cons l rest ih =>
    intro acc e he
    cases l with
    | blank => exact ih acc e he
    | malformed => exact ih acc e he
    | noField => exact ih acc e he
    | chunk t =>
      rcases List.mem_cons.mp he with h1 | h2
      · rw [h1]
      · rcases List.mem_cons.mp h2 with h3 | h4
        · rw [h3]
        · exact ih (acc ++ t) e h4

/-- Claim C3, counterexample: the claim says the background network
thread never mutates shared view state directly; but on a concrete run
the very first trace event — creating the live placeholder box and
appending it to `messages_box` (src/llm_menu.py lines 269-270) — is
executed directly on the worker thread, so not every event of the run
is posted. -/
theorem send_to_ollama_worker_mutation_cex :
    ¬ (∀ e ∈ send_to_ollama_trace [Line.chunk ("hi".toList)] Outcome.done,
        e.1 = Origin.postedIdle) := by
  decide

/-- Claim C3, amended: apart from the initial creation and append of the
live placeholder box, which `send_to_ollama` performs directly on the
worker thread, every view mutation of a session — live-text updates,
scrolling, the final segment boxes, error messages, history writes — is
enqueued with `GLib.idle_add` onto the presentation thread, in the
single session's program order (GLib delivers idle sources in FIFO
order). -/
theorem send_to_ollama_marshals_after_placeholder (lines : List Line)
    (oc : Outcome) :
    (send_to_ollama_trace lines oc).head?
      = some (Origin.worker, ViewMutation.appendBox placeholderBox) ∧
    (∀ e ∈ (send_to_ollama_trace lines oc).tail,
      e.1 = Origin.postedIdle) := by
  constructor
  · rfl
  · intro e he
    cases oc with
    | done =>
      rcases List.mem_cons.mp he with h | h
      · rw [h]
      · rcases List.mem_append.mp h with h | h
        · rcases List.mem_append.mp h with h | h
          · exact chunkTrace_posted lines [] e h
          · rcases List.mem_cons.mp h with h | h
            · rw [h]
            · rcases List.mem_map.mp h with ⟨p, _, hp⟩
              rw [← hp]
        · rcases List.mem_cons.mp h with h | h
          · rw [h]
          · rcases List.mem_cons.mp h with h | h
            · rw [h]
            · simp at h
    | httpError status =>
      rcases List.mem_cons.mp he with h | h
      · rw [h]
      · rcases List.mem_cons.mp h with h | h
        · rw [h]
        · rcases List.mem_cons.mp h with h | h
          · rw [h]
          · simp at h
    | exn msg =>
      rcases List.mem_cons.mp he with h | h
      · rw [h]
      · rcases List.mem_append.mp h with h | h
        · exact chunkTrace_posted lines [] e h
        · rcases List.mem_cons.mp h with h | h
          · rw [h]
          · rcases List.mem_cons.mp h with h | h
            · rw [h]
            · simp at h

/-- Witness for the amended C3 at a concrete session trace. -/
theorem send_to_ollama_marshals_witness :
    ((Origin.postedIdle, ViewMutation.scrollAdjust) : Origin × ViewMutation)
      ∈ (send_to_ollama_trace [] Outcome.done).tail ∧
    ((Origin.postedIdle, ViewMutation.scrollAdjust) :
        Origin × ViewMutation).1 = Origin.postedIdle :=
  ⟨by decide,
   (send_to_ollama_marshals_after_placeholder [] Outcome.done).2 _ (by decide)⟩
